import Mathlib

/-
Verification development for the daily-brief generator (src/generate_brief.py).

The Python program is shallowly embedded: the external retrieval capability
(anthropic message call), the rendering engine (reportlab doc.build) and the
mail transport (smtplib session) are opaque parameters; every piece of logic
of the program itself (prompt construction, text extraction, error fallback,
story-list assembly, configuration gating, filename construction, process
control flow) is translated into executable Lean definitions.
-/

/-- The apostrophe character (U+0027); string constants of the source that
contain an apostrophe splice it in through this definition. -/
def apos : Char := Char.ofNat 39

/-- One-character string holding the apostrophe. -/
def aposS : String := String.mk [apos]

/-- One block of the response content returned by the retrieval capability.
Only blocks carrying a text field contribute to the extracted prose
(generate_brief.py line 67-69: hasattr(block, then the text attribute)). -/
inductive ContentBlock where
  | text (s : String)
  | other
  deriving DecidableEq

/-- Outcome of one call to the external retrieval capability: either a
response content list, or a raised failure carrying its message (the str(e)
of the caught Python exception). -/
inductive CapResult where
  | ok (content : List ContentBlock)
  | err (msg : String)
  deriving DecidableEq

/-- The format_instructions string literal of search_news
(generate_brief.py lines 33-50), byte for byte: it starts with a newline and
ends with a newline, and does not depend on section_type despite the comment
above it in the source. -/
def format_instructions : String :=
  "\nFormat each story with clear separation:\n\n[Priority indicator if breaking/urgent: 🔴 for urgent, ⚡ for breaking]\n**Title** [Source]\nBrief summary (1-2 sentences)\n→ Why this matters: One-line context explaining significance\n\n[Blank line between stories]\n\nOnly include stories if they"
  ++ aposS ++
  "re genuinely important. Better to have 1-2 great stories than force 3 mediocre ones.\nFor priority indicators:\n- Use 🔴 for urgent stories requiring immediate attention\n- Use ⚡ for breaking news in the past few hours\n- No indicator for standard important news\n\nImportant: Add a blank line (use two line breaks) between each story for readability.\n"

/-- The prompt string search_news hands to the retrieval capability
(generate_brief.py line 61: query, two newlines, format_instructions).
It is parameterized by everything in scope at the call site; note that
neither max_results nor section_type occurs in the constructed string. -/
def issuedPrompt (query : String) (max_results : Nat) (section_type : String) : String :=
  query ++ "\n\n" ++ format_instructions

/-- Text extraction loop of search_news (generate_brief.py lines 66-69):
concatenate the text of every content block that has a text attribute. -/
def extractText : List ContentBlock → String
  | [] => ""
  | ContentBlock.text s :: rest => s ++ extractText rest
  | ContentBlock.other :: rest => extractText rest

/-- search_news (generate_brief.py lines 29-75). The client parameter is the
opaque retrieval capability: prompt in, content or failure out. On a
response, the extracted text is returned as is when non-empty (Python string
truthiness), else the fixed placeholder; on any capability failure the
function returns normally with the error-notice string carrying the failure
message. The function is total: no failure escapes this boundary. -/
def search_news (client : String → CapResult) (query : String)
    (max_results : Nat) (section_type : String) : String :=
  match client (issuedPrompt query max_results section_type) with
  | CapResult.ok content =>
      let full_text := extractText content
      if full_text = "" then "No significant news found." else full_text
  | CapResult.err e => "Error retrieving news: " ++ e

/-- Query of the AI and technology section (generate_brief.py lines 177-180,
the four adjacent Python string literals joined). -/
def aiQuery : String :=
  "Search for the most important AI and technology news stories from the past 24 hours (aim for 2-3 stories, but only include if genuinely significant). Focus on: new AI model releases, major tech company announcements, AI policy/regulation, breakthrough research, significant product launches, or major industry shifts. Quality over quantity - skip if nothing important happened."

/-- Query of the finance section (generate_brief.py lines 188-191). -/
def financeQuery : String :=
  "Search for the most important financial and market news stories from the past 24 hours (aim for 2-3 stories, but only include if genuinely significant). Focus on: major market movements, Federal Reserve or central bank decisions, significant corporate earnings or announcements, economic policy changes, crypto developments, or major sector shifts. Quality over quantity."

/-- Query of the real estate section (generate_brief.py lines 199-201). -/
def realEstateQuery : String :=
  "Search for the most important real estate news stories from the past 24 hours (aim for 2-3 stories, but only include if genuinely significant). Focus on: residential and commercial real estate markets, major policy changes, significant transactions, market trend shifts, or regulatory developments. Quality over quantity."

/-- Query of the Hacker News section (generate_brief.py lines 209-211). -/
def hnQuery : String :=
  "Search for the top stories on Hacker News from the past 24 hours (aim for 2-3 stories, but only include if genuinely interesting). Focus on the most interesting technical discussions, product launches, or thought-provoking articles. Avoid "
  ++ aposS ++ "Show HN" ++ aposS ++
  " posts unless exceptionally noteworthy. Quality over quantity."

/-- The regions list of generate_brief (generate_brief.py lines 217-239):
pairs of section heading and raw region query. -/
def defaultRegions : List (String × String) :=
  [("NORTH AMERICA",
    "Search for 2-3 needle-moving news stories from North America (US, Canada, Mexico) in the past 24 hours that are NOT being widely covered by mainstream media like CNN or BBC. Focus on local sources, regional developments, policy changes, or significant events that mainstream media is missing or underreporting."),
   ("EUROPE",
    "Search for 2-3 needle-moving news stories from Europe in the past 24 hours that are NOT being widely covered by mainstream media like BBC or major EU outlets. Focus on local sources, regional political developments, economic changes, or significant events that mainstream media is missing or underreporting."),
   ("ASIA-PACIFIC",
    "Search for 2-3 needle-moving news stories from Asia-Pacific region in the past 24 hours that are NOT being widely covered by mainstream Western media. Focus on local sources, regional political developments, economic changes, or significant events that mainstream media is missing."),
   ("MIDDLE EAST & AFRICA",
    "Search for 2-3 needle-moving news stories from Middle East and Africa in the past 24 hours that are NOT being widely covered by mainstream Western media. Focus on local sources, regional developments, policy changes, or significant events that mainstream media is missing."),
   ("LATIN AMERICA",
    "Search for 2-3 needle-moving news stories from Latin America in the past 24 hours that are NOT being widely covered by mainstream media. Focus on local sources, regional political and economic developments, or significant events that mainstream media is missing.")]

/-- The deep-dive query (generate_brief.py lines 261-269), byte for byte: a
fixed Python triple-quoted literal.  Its first line ends with a trailing
space, the continuation lines keep their four-space indentation, and no
formatted result of any earlier section is interpolated into it. -/
def deepdive_query : String :=
  "Based on all the news stories from today, identify 1-2 stories that are particularly worth reading the full articles on. \n    These should be stories that:\n    - Have significant long-term implications\n    - Are complex enough to benefit from deeper reading\n    - Represent important trends or turning points\n    \n    Format as:\n    **Story Title** [Source with link if available]\n    Why read the full article: One sentence explaining why this deserves deeper attention."

/-- The prompt of the deep-dive retrieval call (generate_brief.py line 271):
search_news applied to the fixed deep-dive query with max_results 2 and
section_type deepdive. -/
def deepdivePrompt : String := issuedPrompt deepdive_query 2 "deepdive"

/-- Boolean list-prefix test over characters (helper for substring search). -/
def listPrefixOf : List Char → List Char → Bool
  | [], _ => true
  | _ :: _, [] => false
  | a :: as, b :: bs => a == b && listPrefixOf as bs

/-- Boolean substring search: does pat occur (contiguously) in s. -/
def listContains (pat : List Char) : List Char → Bool
  | [] => pat.isEmpty
  | b :: rest => listPrefixOf pat (b :: rest) || listContains pat rest

/-- String-level substring test: pat occurs contiguously in s. -/
def strContains (s pat : String) : Bool :=
  listContains pat.data s.data

/-- Fuel-driven engine of strReplace: replaces non-overlapping occurrences of
pat left to right, like Python str.replace; fuel bounds the scan length. -/
def replaceFuel (pat repl : List Char) : Nat → List Char → List Char
  | 0, s => s
  | _ + 1, [] => []
  | fuel + 1, c :: rest =>
    if listPrefixOf pat (c :: rest) && !pat.isEmpty then
      repl ++ replaceFuel pat repl fuel (List.drop (pat.length - 1) rest)
    else
      c :: replaceFuel pat repl fuel rest

/-- Python str.replace: every non-overlapping occurrence of pat in s is
replaced by repl, scanning left to right. -/
def strReplace (s pat repl : String) : String :=
  String.mk (replaceFuel pat.data repl.data s.data.length s.data)

/-- The per-region query enhancement (generate_brief.py lines 245-246):
replace the 2-3 needle-moving phrase and append the quality suffix. -/
def enhance (region_query : String) : String :=
  strReplace region_query "2-3 needle-moving"
    "needle-moving (aim for 2-3 but only if genuinely significant)"
  ++ " Quality over quantity."

/-- One flowable appended to the reportlab story list: a paragraph with its
text and the name of the ParagraphStyle it is rendered with, or a spacer
whose height is recorded in hundredths of an inch. -/
inductive Element where
  | paragraph (text style : String)
  | spacer (centiInch : Nat)
  deriving DecidableEq

/-- Externally visible operations of one run, in program order: a retrieval
capability call with its prompt, the PDF build attempt and the file it
writes, and the operations of send_email (reading the artifact for
attachment, and the transport send). -/
inductive Event where
  | retrievalCall (prompt : String)
  | pdfBuild (path : String)
  | fileWrite (path : String)
  | fileRead (path : String)
  | fileDelete (path : String)
  | smtpSend (recipient : String)
  deriving DecidableEq

/-- A catalog entry: heading text, style name, query, and the two extra
arguments generate_brief passes to search_news for that section. -/
structure SectionSpec where
  header : String
  style : String
  query : String
  maxResults : Nat
  sectionType : String
  deriving DecidableEq

/-- The prompt a catalog entry's retrieval call carries. -/
def promptOf (s : SectionSpec) : String :=
  issuedPrompt s.query s.maxResults s.sectionType

/-- Driver state while generate_brief runs: the growing story list and the
trace of events so far, both in program order. -/
@[ext] structure GenState where
  story : List Element
  events : List Event
  deriving DecidableEq

/-- One non-deep-dive section step of generate_brief (the repeated pattern of
lines 175-183 and the loop body of lines 241-249): append the heading
paragraph, issue the retrieval call through search_news, append the body
paragraph and the 0.15 inch spacer. -/
def doSection (client : String → CapResult) (st : GenState) (s : SectionSpec) : GenState :=
  { story := st.story ++
      [Element.paragraph s.header s.style,
       Element.paragraph (search_news client s.query s.maxResults s.sectionType) "Content",
       Element.spacer 15],
    events := st.events ++ [Event.retrievalCall (promptOf s)] }

/-- The deep-dive step of generate_brief (lines 251-272): 0.2 inch spacer,
the gold heading, one further retrieval call on the fixed deep-dive query,
and its body paragraph (no trailing spacer). -/
def doDeepdive (client : String → CapResult) (st : GenState) : GenState :=
  { story := st.story ++
      [Element.spacer 20,
       Element.paragraph "RECOMMENDED DEEP DIVES" "DeepDiveSection",
       Element.paragraph (search_news client deepdive_query 2 "deepdive") "Content"],
    events := st.events ++ [Event.retrievalCall deepdivePrompt] }

/-- Title block of the story (generate_brief.py lines 170-172): the title
paragraph, the italicized date paragraph, and the 0.1 inch spacer. -/
def titleElems (today : String) : List Element :=
  [Element.paragraph "DAILY INTELLIGENCE BRIEF" "CustomTitle",
   Element.paragraph ("<i>" ++ today ++ "</i>") "DateStyle",
   Element.spacer 10]

/-- Catalog entry of the AI and technology section (lines 175-181). -/
def aiSpec : SectionSpec :=
  ⟨"ARTIFICIAL INTELLIGENCE & TECHNOLOGY", "TechSection", aiQuery, 3, "tech"⟩

/-- Catalog entry of the finance section (lines 186-192). -/
def financeSpec : SectionSpec :=
  ⟨"FINANCE & MARKETS", "FinanceSection", financeQuery, 3, "finance"⟩

/-- Catalog entry of the real estate section (lines 197-202). -/
def realEstateSpec : SectionSpec :=
  ⟨"REAL ESTATE", "RealEstateSection", realEstateQuery, 3, "realestate"⟩

/-- Catalog entry of the Hacker News section (lines 207-212). -/
def hnSpec : SectionSpec :=
  ⟨"HACKER NEWS HIGHLIGHTS", "HNSection", hnQuery, 3, "hackernews"⟩

/-- Catalog entry built from one regions pair (loop body, lines 241-247):
heading from the pair, enhanced query, max_results 3, section_type regional. -/
def regionSpec (r : String × String) : SectionSpec :=
  ⟨r.1, "RegionalSection", enhance r.2, 3, "regional"⟩

/-- The ordered retrieval catalog of one run, deep-dive excluded: the four
fixed sections followed by one entry per regions pair, in list order. -/
def briefCatalog (regions : List (String × String)) : List SectionSpec :=
  [aiSpec, financeSpec, realEstateSpec, hnSpec] ++ regions.map regionSpec

/-- Driver state after every section except the deep dive has been processed
(generate_brief.py lines 167-249): title block first, then the four fixed
sections in source order, then the regions in list order. -/
def preDeepState (client : String → CapResult) (regions : List (String × String))
    (today : String) : GenState :=
  let st : GenState := ⟨titleElems today, []⟩
  let st := doSection client st aiSpec
  let st := doSection client st financeSpec
  let st := doSection client st realEstateSpec
  let st := doSection client st hnSpec
  List.foldl (fun st r => doSection client st (regionSpec r)) st regions

/-- Full story construction of generate_brief (lines 167-272): all ordinary
sections, then the deep-dive step, which is the last retrieval call. -/
def generateStoryState (client : String → CapResult) (regions : List (String × String))
    (today : String) : GenState :=
  doDeepdive client (preDeepState client regions today)

/-- The three story elements one ordinary catalog section contributes. -/
def secElems (client : String → CapResult) (s : SectionSpec) : List Element :=
  [Element.paragraph s.header s.style,
   Element.paragraph (search_news client s.query s.maxResults s.sectionType) "Content",
   Element.spacer 15]

/-- The three story elements the deep-dive section contributes. -/
def deepElems (client : String → CapResult) : List Element :=
  [Element.spacer 20,
   Element.paragraph "RECOMMENDED DEEP DIVES" "DeepDiveSection",
   Element.paragraph (search_news client deepdive_query 2 "deepdive") "Content"]

/-- A calendar date as the three numeric fields strftime reads. -/
structure Date where
  y : Nat
  m : Nat
  d : Nat
  deriving DecidableEq

/-- Zero-padded fixed-width decimal digits, most significant first:
padDigits w n is the w-character decimal rendering of n (n below 10 to the
w). This is what strftime produces for the directives used by the source
(%Y as four digits, %m and %d as two). -/
def padDigits : Nat → Nat → List Char
  | 0, _ => []
  | w + 1, n => Char.ofNat (48 + n / 10 ^ w % 10) :: padDigits w (n % 10 ^ w)

/-- strftime with the %Y%m%d format string (generate_brief.py lines 90 and
321): four year digits, two month digits, two day digits, no separators. -/
def yyyymmdd (dt : Date) : String :=
  String.mk (padDigits 4 dt.y ++ padDigits 2 dt.m ++ padDigits 2 dt.d)

/-- The artifact path of generate_brief (line 90). -/
def pdf_filename (dt : Date) : String :=
  "/tmp/daily_brief_" ++ yyyymmdd dt ++ ".pdf"

/-- The attachment filename of send_email (line 321). -/
def attachment_filename (dt : Date) : String :=
  "daily_brief_" ++ yyyymmdd dt ++ ".pdf"

/-- A calendar date strftime can actually receive: four-digit year and the
calendar ranges for month and day. -/
def validDate (dt : Date) : Prop :=
  dt.y < 10000 ∧ 1 ≤ dt.m ∧ dt.m ≤ 12 ∧ 1 ≤ dt.d ∧ dt.d ≤ 31

/-- Chronological order on dates: year, then month, then day. -/
def dateLt (a b : Date) : Prop :=
  a.y < b.y ∨ (a.y = b.y ∧ (a.m < b.m ∨ (a.m = b.m ∧ a.d < b.d)))

/-- Strict lexicographic order on character lists, by code point. -/
def lexLt : List Char → List Char → Bool
  | _, [] => false
  | [], _ :: _ => true
  | a :: as, b :: bs =>
    decide (a.toNat < b.toNat) || (decide (a.toNat = b.toNat) && lexLt as bs)

/-- Strict lexicographic order on strings, by code point. -/
def strLt (s t : String) : Bool :=
  lexLt s.data t.data

/-- The process environment the source reads at import time
(generate_brief.py lines 24-27): each variable is absent or holds a string
(possibly empty, which Python treats as falsy). -/
structure Config where
  anthropic_api_key : Option String
  email_address : Option String
  email_password : Option String
  recipient_email_env : Option String
  deriving DecidableEq

/-- Python truthiness of os.environ.get: false when the variable is unset or
holds the empty string. -/
def truthyOpt : Option String → Bool
  | none => false
  | some s => s != ""

/-- Python truthiness of a string value. -/
def truthyStr (s : String) : Bool := s != ""

/-- RECIPIENT_EMAIL (line 27): the environment value with the documented
hard-coded fallback address. -/
def recipientOf (cfg : Config) : String :=
  cfg.recipient_email_env.getD "jamil.latif@hotmail.co.uk"

/-- The all([...]) gate of send_email (line 286) as a Boolean. -/
def emailConfigOk (cfg : Config) : Bool :=
  truthyOpt cfg.email_address && truthyOpt cfg.email_password
    && truthyStr (recipientOf cfg)

/-- How generate_brief terminates: a sys.exit with its code, a Python
exception propagating out (the doc.build failure), or normal return of the
artifact path. -/
inductive BriefOutcome where
  | exited (code : Nat)
  | raised (msg : String)
  | ok (pdf_path : String)
  deriving DecidableEq

/-- How send_email terminates: a sys.exit with its code (missing
configuration, or the caught transport failure), or normal return. -/
inductive SendOutcome where
  | exited (code : Nat)
  | ok
  deriving DecidableEq

/-- generate_brief (generate_brief.py lines 78-279) with its externals
explicit: render is the opaque doc.build outcome. If the retrieval
credential is falsy the function exits 1 before any retrieval call (lines
82-84); otherwise every section is fetched in order, then doc.build runs on
the assembled story; a build failure propagates as an exception, success
writes the artifact and returns its path. -/
def generate_briefRun (cfg : Config) (client : String → CapResult)
    (render : Except String Unit) (dt : Date) (today : String) :
    BriefOutcome × List Event :=
  if truthyOpt cfg.anthropic_api_key = false then
    (BriefOutcome.exited 1, [])
  else
    let path := pdf_filename dt
    let st := generateStoryState client defaultRegions today
    match render with
    | Except.error e => (BriefOutcome.raised e, st.events ++ [Event.pdfBuild path])
    | Except.ok _ =>
        (BriefOutcome.ok path, st.events ++ [Event.pdfBuild path, Event.fileWrite path])

/-- send_email (generate_brief.py lines 282-334) with the transport outcome
explicit. Missing email configuration exits 1 before any file or transport
operation (lines 286-291); otherwise the artifact is read for attachment,
and the SMTP session either succeeds or its failure is caught and the
process exits 1. No path deletes or rewrites the artifact. -/
def send_emailRun (cfg : Config) (pdf_path : String)
    (transport : Except String Unit) : SendOutcome × List Event :=
  if emailConfigOk cfg = false then
    (SendOutcome.exited 1, [])
  else
    match transport with
    | Except.error _ => (SendOutcome.exited 1, [Event.fileRead pdf_path])
    | Except.ok _ =>
        (SendOutcome.ok, [Event.fileRead pdf_path, Event.smtpSend (recipientOf cfg)])

/-- main (generate_brief.py lines 337-346): generate_brief then send_email.
sys.exit raises SystemExit, which the except-Exception handler does not
catch, so an inner exit code is the process exit code; a doc.build exception
is caught and turned into exit 1; a fully successful run exits 0. Returns
the process exit code and the full event trace. -/
def mainRun (cfg : Config) (client : String → CapResult)
    (render : Except String Unit) (transport : Except String Unit)
    (dt : Date) (today : String) : Nat × List Event :=
  match generate_briefRun cfg client render dt today with
  | (BriefOutcome.exited c, ev) => (c, ev)
  | (BriefOutcome.raised _, ev) => (1, ev)
  | (BriefOutcome.ok path, ev) =>
      match send_emailRun cfg path transport with
      | (SendOutcome.exited c, ev2) => (c, ev ++ ev2)
      | (SendOutcome.ok, ev2) => (0, ev ++ ev2)

/-- Recognizer for retrieval-capability calls in a trace. -/
def isRetrieval : Event → Bool
  | Event.retrievalCall _ => true
  | _ => false

/-- Recognizer for transport sends in a trace. -/
def isSmtp : Event → Bool
  | Event.smtpSend _ => true
  | _ => false

/-- Recognizer for file reads in a trace. -/
def isFileRead : Event → Bool
  | Event.fileRead _ => true
  | _ => false

/-- Recognizer for file writes in a trace. -/
def isFileWrite : Event → Bool
  | Event.fileWrite _ => true
  | _ => false

/-- Recognizer for file deletions in a trace. -/
def isFileDelete : Event → Bool
  | Event.fileDelete _ => true
  | _ => false

/-- Concatenation of the story contributions of a list of catalog entries. -/
def sectionsElems (client : String → CapResult) : List SectionSpec → List Element
  | [] => []
  | s :: rest => secElems client s ++ sectionsElems client rest

/-- Event trace of a list of catalog entries: one retrieval call each. -/
def sectionsEvents (l : List SectionSpec) : List Event :=
  l.map (fun s => Event.retrievalCall (promptOf s))

/-- Unrolling the regions loop of generate_brief: folding doSection over a
regions list appends that list's section blocks and retrieval events. -/
theorem foldl_doSection (client : String → CapResult) :
    ∀ (regions : List (String × String)) (st : GenState),
      List.foldl (fun st r => doSection client st (regionSpec r)) st regions =
        ⟨st.story ++ sectionsElems client (regions.map regionSpec),
         st.events ++ sectionsEvents (regions.map regionSpec)⟩ := by
  intro regions
  induction regions with
  | nil => intro st; cases st; simp [sectionsElems, sectionsEvents]
  | cons r rs ih =>
      intro st
      rw [List.foldl_cons, ih]
      cases st
      simp [doSection, sectionsElems, sectionsEvents, secElems]

/-- Closed form of the pre-deep-dive driver state: the title block followed
by the blocks of every catalog section in catalog order, with exactly the
catalog's retrieval calls issued, in order. -/
theorem preDeepState_eq (client : String → CapResult)
    (regions : List (String × String)) (today : String) :
    preDeepState client regions today =
      ⟨titleElems today ++ sectionsElems client (briefCatalog regions),
       sectionsEvents (briefCatalog regions)⟩ := by
  unfold preDeepState
  rw [foldl_doSection]
  simp [doSection, briefCatalog, sectionsElems, sectionsEvents, secElems]

/-- Closed form of the final story: title block, every catalog section in
order, then the deep-dive block. -/
theorem generateStory_story (client : String → CapResult)
    (regions : List (String × String)) (today : String) :
    (generateStoryState client regions today).story =
      titleElems today ++ sectionsElems client (briefCatalog regions)
        ++ deepElems client := by
  unfold generateStoryState doDeepdive
  rw [preDeepState_eq]
  simp [deepElems]

/-- Closed form of the retrieval-call trace: the catalog's calls in catalog
order, then the deep-dive call as the final one. -/
theorem generateStory_events (client : String → CapResult)
    (regions : List (String × String)) (today : String) :
    (generateStoryState client regions today).events =
      sectionsEvents (briefCatalog regions) ++ [Event.retrievalCall deepdivePrompt] := by
  unfold generateStoryState doDeepdive
  rw [preDeepState_eq]

/-- The catalog has the four fixed sections plus one per regions entry. -/
theorem briefCatalog_length (regions : List (String × String)) :
    (briefCatalog regions).length = 4 + regions.length := by
  simp [briefCatalog]
  omega

/-- Each ordinary section contributes three story elements. -/
theorem sectionsElems_length (client : String → CapResult) :
    ∀ l : List SectionSpec, (sectionsElems client l).length = 3 * l.length := by
  intro l
  induction l with
  | nil => rfl
  | cons s rest ih => simp [sectionsElems, secElems, ih]; omega

/-- Every event generate_brief records before doc.build is a retrieval call. -/
theorem generateStory_events_retrieval (client : String → CapResult)
    (regions : List (String × String)) (today : String) :
    ∀ e ∈ (generateStoryState client regions today).events, isRetrieval e = true := by
  intro e he
  rw [generateStory_events] at he
  rcases List.mem_append.mp he with h | h
  · rcases List.mem_map.mp h with ⟨s, _, rfl⟩
    rfl
  · rcases List.mem_singleton.mp h with rfl
    rfl

/-- Character data of a concatenation is the concatenation of the data. -/
theorem data_append (s t : String) : (s ++ t).data = s.data ++ t.data := by
  cases s
  cases t
  rfl

/-- listPrefixOf is reflexive. -/
theorem listPrefixOf_refl : ∀ l : List Char, listPrefixOf l l = true := by
  intro l
  induction l with
  | nil => rfl
  | cons c cs ih => simp [listPrefixOf, ih]

/-- Every list occurs in itself. -/
theorem listContains_self : ∀ l : List Char, listContains l l = true := by
  intro l
  cases l with
  | nil => rfl
  | cons c cs => simp [listContains, listPrefixOf_refl]

/-- An occurrence in the right part survives prepending on the left. -/
theorem listContains_append_right (pat b : List Char) (h : listContains pat b = true) :
    ∀ a : List Char, listContains pat (a ++ b) = true := by
  intro a
  induction a with
  | nil => simpa using h
  | cons c cs ih => simp [listContains, ih]

/-- A string occurs in anything of which it is the appended suffix. -/
theorem strContains_append_self (p e : String) : strContains (p ++ e) e = true := by
  unfold strContains
  rw [data_append]
  exact listContains_append_right _ _ (listContains_self _) _

/-- Strict lexicographic order is irreflexive. -/
theorem lexLt_irrefl : ∀ l : List Char, lexLt l l = false := by
  intro l
  induction l with
  | nil => rfl
  | cons c cs ih => simp [lexLt, ih]

/-- A shared prefix does not affect lexicographic comparison. -/
theorem lexLt_append_same (a b : List Char) :
    ∀ p : List Char, lexLt (p ++ a) (p ++ b) = lexLt a b := by
  intro p
  induction p with
  | nil => rfl
  | cons c cs ih => simp [lexLt, ih]

/-- padDigits always renders exactly its width. -/
theorem padDigits_length : ∀ w n : Nat, (padDigits w n).length = w := by
  intro w
  induction w with
  | zero => intro n; rfl
  | succ w ih => intro n; simp [padDigits, ih]

/-- Code point of an ASCII digit character. -/
theorem digChar_toNat (x : Nat) (h : x < 10) : (Char.ofNat (48 + x)).toNat = 48 + x := by
  interval_cases x <;> decide

/-- Fixed-width decimal renderings compare lexicographically exactly as the
numbers they render, whatever follows them. -/
theorem padDigits_lexLt :
    ∀ (w n m : Nat) (s t : List Char), n < 10 ^ w → m < 10 ^ w → n < m →
      lexLt (padDigits w n ++ s) (padDigits w m ++ t) = true := by
  intro w
  induction w with
  | zero =>
      intro n m s t hn hm hnm
      simp [pow_zero] at hn hm
      omega
  | succ w ih =>
      intro n m s t hn hm hnm
      have hpos : 0 < 10 ^ w := Nat.pos_pow_of_pos w (by norm_num)
      have hn10 : n / 10 ^ w < 10 := by
        rw [Nat.div_lt_iff_lt_mul hpos]
        calc n < 10 ^ (w + 1) := hn
          _ = 10 * 10 ^ w := by ring
      have hm10 : m / 10 ^ w < 10 := by
        rw [Nat.div_lt_iff_lt_mul hpos]
        calc m < 10 ^ (w + 1) := hm
          _ = 10 * 10 ^ w := by ring
      have en : n / 10 ^ w % 10 = n / 10 ^ w := Nat.mod_eq_of_lt hn10
      have em : m / 10 ^ w % 10 = m / 10 ^ w := Nat.mod_eq_of_lt hm10
      have hple : n / 10 ^ w ≤ m / 10 ^ w := Nat.div_le_div_right (Nat.le_of_lt hnm)
      rcases Nat.lt_or_ge (n / 10 ^ w) (m / 10 ^ w) with hlt | hge
      · simp only [padDigits, List.cons_append, lexLt, en, em]
        have : (Char.ofNat (48 + n / 10 ^ w)).toNat < (Char.ofNat (48 + m / 10 ^ w)).toNat := by
          rw [digChar_toNat _ hn10, digChar_toNat _ hm10]
          omega
        simp [this]
      · have heq : n / 10 ^ w = m / 10 ^ w := Nat.le_antisymm hple hge
        simp only [padDigits, List.cons_append, lexLt, en, em, heq]
        have hrec : lexLt (padDigits w (n % 10 ^ w) ++ s) (padDigits w (m % 10 ^ w) ++ t) = true := by
          apply ih
          · exact Nat.mod_lt _ hpos
          · exact Nat.mod_lt _ hpos
          · have e1 := Nat.div_add_mod n (10 ^ w)
            have e2 := Nat.div_add_mod m (10 ^ w)
            rw [heq] at e1
            omega
        simp [hrec]

/-- The eight strftime digits compare lexicographically exactly as the dates
they render, chronologically, whatever suffix follows them. -/
theorem yyyymmdd_lexLt (a b : Date) (ha : validDate a) (hb : validDate b)
    (hlt : dateLt a b) (s t : List Char) :
    lexLt ((yyyymmdd a).data ++ s) ((yyyymmdd b).data ++ t) = true := by
  obtain ⟨hay, ham1, ham2, had1, had2⟩ := ha
  obtain ⟨hby, hbm1, hbm2, hbd1, hbd2⟩ := hb
  have e4 : (10000 : Nat) = 10 ^ 4 := by norm_num
  have e100 : (100 : Nat) = 10 ^ 2 := by norm_num
  have ea : (yyyymmdd a).data ++ s =
      padDigits 4 a.y ++ (padDigits 2 a.m ++ (padDigits 2 a.d ++ s)) := by
    simp [yyyymmdd]
  have eb : (yyyymmdd b).data ++ t =
      padDigits 4 b.y ++ (padDigits 2 b.m ++ (padDigits 2 b.d ++ t)) := by
    simp [yyyymmdd]
  rw [ea, eb]
  rcases hlt with hy | ⟨hyEq, hm | ⟨hmEq, hd⟩⟩
  · exact padDigits_lexLt 4 a.y b.y _ _ (e4 ▸ hay) (e4 ▸ hby) hy
  · rw [hyEq, lexLt_append_same]
    exact padDigits_lexLt 2 a.m b.m _ _ (e100 ▸ (by omega : a.m < 100))
      (e100 ▸ (by omega : b.m < 100)) hm
  · rw [hyEq, lexLt_append_same, hmEq, lexLt_append_same]
    exact padDigits_lexLt 2 a.d b.d _ _ (e100 ▸ (by omega : a.d < 100))
      (e100 ▸ (by omega : b.d < 100)) hd

/-- C7. The artifact path (generate_brief.py line 90) and the attachment
filename (line 321) embed the generation date as the fixed eight-digit
YYYYMMDD field, so for any two valid dates in chronological order the two
filenames are strictly ordered lexicographically (by code point) and in
particular distinct: repeated daily runs never collide and sort by date. -/
theorem filename_embeds_sortable_date (a b : Date) (ha : validDate a) (hb : validDate b)
    (hlt : dateLt a b) :
    strLt (pdf_filename a) (pdf_filename b) = true
    ∧ strLt (attachment_filename a) (attachment_filename b) = true
    ∧ pdf_filename a ≠ pdf_filename b
    ∧ attachment_filename a ≠ attachment_filename b
    ∧ (yyyymmdd a).length = 8 := by
  have hpdf : strLt (pdf_filename a) (pdf_filename b) = true := by
    unfold strLt pdf_filename
    rw [data_append, data_append, data_append, data_append,
      List.append_assoc, List.append_assoc, lexLt_append_same]
    exact yyyymmdd_lexLt a b ha hb hlt _ _
  have hatt : strLt (attachment_filename a) (attachment_filename b) = true := by
    unfold strLt attachment_filename
    rw [data_append, data_append, data_append, data_append,
      List.append_assoc, List.append_assoc, lexLt_append_same]
    exact yyyymmdd_lexLt a b ha hb hlt _ _
  refine ⟨hpdf, hatt, ?_, ?_, ?_⟩
  · intro hEq
    rw [hEq] at hpdf
    unfold strLt at hpdf
    rw [lexLt_irrefl] at hpdf
    exact Bool.noConfusion hpdf
  · intro hEq
    rw [hEq] at hatt
    unfold strLt at hatt
    rw [lexLt_irrefl] at hatt
    exact Bool.noConfusion hatt
  · simp [yyyymmdd, String.length, padDigits_length]

/-- Witness for C7 at two concrete consecutive days. -/
theorem filename_embeds_sortable_date_witness :
    strLt (pdf_filename ⟨2025, 10, 11⟩) (pdf_filename ⟨2025, 10, 12⟩) = true
    ∧ strLt (attachment_filename ⟨2025, 10, 11⟩) (attachment_filename ⟨2025, 10, 12⟩) = true
    ∧ pdf_filename ⟨2025, 10, 11⟩ ≠ pdf_filename ⟨2025, 10, 12⟩
    ∧ attachment_filename ⟨2025, 10, 11⟩ ≠ attachment_filename ⟨2025, 10, 12⟩
    ∧ (yyyymmdd ⟨2025, 10, 11⟩).length = 8 :=
  filename_embeds_sortable_date ⟨2025, 10, 11⟩ ⟨2025, 10, 12⟩
    (by constructor <;> simp) (by constructor <;> simp)
    (Or.inr ⟨rfl, Or.inr ⟨rfl, by norm_num⟩⟩)

/-- A predicate that rejects every retrieval call counts zero on a trace of
retrieval calls only. -/
theorem countP_zero_of_retrieval (q : Event → Bool)
    (hq : ∀ p : String, q (Event.retrievalCall p) = false)
    (l : List Event) (hl : ∀ e ∈ l, isRetrieval e = true) :
    List.countP q l = 0 := by
  rw [List.countP_eq_zero]
  intro a ha
  have hr := hl a ha
  cases a <;> simp_all [isRetrieval, hq]

/-- The retrieval-call count of a catalog trace is the catalog size. -/
theorem countP_retrieval_sectionsEvents (l : List SectionSpec) :
    List.countP isRetrieval (sectionsEvents l) = l.length := by
  induction l with
  | nil => rfl
  | cons s rest ih =>
      simp only [sectionsEvents, List.map_cons, List.countP_cons] at *
      simp [isRetrieval, ih]

/-- C9. The max_results and section_type parameters of search_news are dead:
the prompt handed to the retrieval capability and the returned value are both
independent of them — two calls differing only in those two arguments are
indistinguishable. (In the source, max_results is never read and the
format_instructions block is the same constant for every section_type.) -/
theorem search_news_params_no_effect (client : String → CapResult) (query : String)
    (mr1 mr2 : Nat) (sty1 sty2 : String) :
    issuedPrompt query mr1 sty1 = issuedPrompt query mr2 sty2
    ∧ search_news client query mr1 sty1 = search_news client query mr2 sty2 :=
  ⟨rfl, rfl⟩

/-- C4. When the retrieval capability fails with any message, search_news
returns normally with the error-notice body that contains that message, and
the story construction still completes with its full block count: one
section's failure never escapes the adapter boundary or aborts the run. -/
theorem search_news_error_isolation (client : String → CapResult)
    (query : String) (mr : Nat) (sty : String) (e : String)
    (regions : List (String × String)) (today : String)
    (h : client (issuedPrompt query mr sty) = CapResult.err e) :
    search_news client query mr sty = "Error retrieving news: " ++ e
    ∧ strContains (search_news client query mr sty) e = true
    ∧ (generateStoryState client regions today).story.length
        = 3 * (4 + regions.length) + 6 := by
  have hs : search_news client query mr sty = "Error retrieving news: " ++ e := by
    simp [search_news, h]
  refine ⟨hs, ?_, ?_⟩
  · rw [hs]
    exact strContains_append_self _ _
  · rw [generateStory_story]
    simp [sectionsElems_length, briefCatalog_length, titleElems, deepElems]

/-- Witness for C4: a concrete quota failure. -/
theorem search_news_error_isolation_witness :
    search_news (fun _ => CapResult.err "quota exhausted") "q" 3 "tech"
        = "Error retrieving news: " ++ "quota exhausted"
    ∧ strContains (search_news (fun _ => CapResult.err "quota exhausted") "q" 3 "tech")
        "quota exhausted" = true
    ∧ (generateStoryState (fun _ => CapResult.err "quota exhausted") defaultRegions
        "October 12, 2025").story.length = 3 * (4 + defaultRegions.length) + 6 :=
  search_news_error_isolation (fun _ => CapResult.err "quota exhausted")
    "q" 3 "tech" "quota exhausted" defaultRegions "October 12, 2025" rfl

/-- A capability double whose successful text has a leading and a trailing
space and a run of three blank lines between the two stories. -/
def capBlank : String → CapResult :=
  fun _ => CapResult.ok [ContentBlock.text " A\n\n\n\nB "]

/-- Counterexample to C5 as stated: on this successful retrieval result the
body search_news hands back is byte-identical to the raw extracted text — the
leading and trailing spaces survive (no trim) and the run of blank lines
survives (no collapse to exactly one separating blank line). -/
theorem formatter_no_blank_collapse_cex :
    search_news capBlank "q" 3 "tech" = " A\n\n\n\nB "
    ∧ strContains (search_news capBlank "q" 3 "tech") "\n\n\n\n" = true
    ∧ search_news capBlank "q" 3 "tech" ≠ "A\n\nB" := by
  refine ⟨by decide, by decide, by decide⟩

/-- C5 as amended: for every successful retrieval with non-empty extracted
text, search_news returns the text verbatim — no trimming, no blank-line
normalization; the single-blank-line separation is instead requested from the
capability itself through the fixed formatting instructions inside every
prompt. -/
theorem formatter_verbatim_text (client : String → CapResult) (query : String)
    (mr : Nat) (sty : String) (content : List ContentBlock)
    (h : client (issuedPrompt query mr sty) = CapResult.ok content)
    (hne : extractText content ≠ "") :
    search_news client query mr sty = extractText content
    ∧ strContains (issuedPrompt query mr sty)
        "Important: Add a blank line (use two line breaks) between each story for readability."
        = true := by
  constructor
  · simp [search_news, h, hne]
  · unfold strContains issuedPrompt
    rw [data_append]
    apply listContains_append_right
    set_option maxRecDepth 40000 in decide

/-- A capability double returning plain two-story text. -/
def capPlain : String → CapResult :=
  fun _ => CapResult.ok [ContentBlock.text "A\n\nB"]

/-- Witness for the amended C5 at a concrete successful retrieval. -/
theorem formatter_verbatim_text_witness :
    search_news capPlain "q" 3 "tech" = extractText [ContentBlock.text "A\n\nB"]
    ∧ strContains (issuedPrompt "q" 3 "tech")
        "Important: Add a blank line (use two line breaks) between each story for readability."
        = true :=
  formatter_verbatim_text capPlain "q" 3 "tech" [ContentBlock.text "A\n\nB"] rfl (by decide)

/-- C10. When the capability responds but its content extracts to the empty
string, search_news substitutes the fixed placeholder; and on no input at all
does search_news return the empty string, so a section body is never empty. -/
theorem empty_extraction_placeholder (client : String → CapResult) (query : String)
    (mr : Nat) (sty : String) (content : List ContentBlock)
    (h : client (issuedPrompt query mr sty) = CapResult.ok content)
    (h2 : extractText content = "") :
    search_news client query mr sty = "No significant news found."
    ∧ ∀ (client2 : String → CapResult) (q2 : String) (mr2 : Nat) (sty2 : String),
        search_news client2 q2 mr2 sty2 ≠ "" := by
  constructor
  · simp [search_news, h, h2]
  · intro client2 q2 mr2 sty2
    cases hc : client2 (issuedPrompt q2 mr2 sty2) with
    | ok content2 =>
        by_cases hft : extractText content2 = ""
        · simp [search_news, hc, hft]
        · simp [search_news, hc, hft]
    | err e =>
        simp only [search_news, hc]
        intro hEq
        have hlen := congrArg String.length hEq
        rw [String.length_append] at hlen
        have h23 : ("Error retrieving news: ").length = 23 := rfl
        have h0 : ("" : String).length = 0 := rfl
        omega

/-- Witness for C10: a response whose only block has no text attribute. -/
theorem empty_extraction_placeholder_witness :
    search_news (fun _ => CapResult.ok [ContentBlock.other]) "q" 5 "general"
        = "No significant news found."
    ∧ ∀ (client2 : String → CapResult) (q2 : String) (mr2 : Nat) (sty2 : String),
        search_news client2 q2 mr2 sty2 ≠ "" :=
  empty_extraction_placeholder (fun _ => CapResult.ok [ContentBlock.other])
    "q" 5 "general" [ContentBlock.other] rfl rfl

/-- C1 as amended: the deep-dive section's retrieval prompt is the fixed
constant deepdivePrompt — it does not embed the formatted results of the
preceding sections (see the counterexample for the refutation of the original
containment claim) — while the ordering half of the claim does hold: the
deep-dive call is the last retrieval call of the run, issued only once the
block of every other catalog section is already in the story. -/
theorem deepdive_prompt_fixed_and_last (client : String → CapResult)
    (regions : List (String × String)) (today : String) :
    (generateStoryState client regions today).events =
        (preDeepState client regions today).events ++ [Event.retrievalCall deepdivePrompt]
    ∧ (preDeepState client regions today).events = sectionsEvents (briefCatalog regions)
    ∧ (preDeepState client regions today).story =
        titleElems today ++ sectionsElems client (briefCatalog regions)
    ∧ (generateStoryState client regions today).events.getLast? =
        some (Event.retrievalCall deepdivePrompt) := by
  refine ⟨rfl, ?_, ?_, ?_⟩
  · rw [preDeepState_eq]
  · rw [preDeepState_eq]
  · rw [generateStory_events]
    exact List.getLast?_concat _

/-- A capability double that answers every prompt with a marker text that
occurs nowhere in the program's own strings. -/
def capMark : String → CapResult :=
  fun _ => CapResult.ok [ContentBlock.text "zXq17 news item"]

/-- Counterexample to C1 as stated: in the run against capMark, the block of
the first section carries the formatted result zXq17 news item and is already
in the story before the deep-dive call, yet the prompt of the deep-dive
retrieval call — the last call of the run — does not contain that result
(not even its marker substring): the deep-dive prompt is not built from the
preceding sections' outputs. -/
theorem deepdive_prompt_claim_cex :
    (generateStoryState capMark defaultRegions "October 12, 2025").events.getLast? =
        some (Event.retrievalCall deepdivePrompt)
    ∧ Element.paragraph "zXq17 news item" "Content" ∈
        (preDeepState capMark defaultRegions "October 12, 2025").story
    ∧ strContains deepdivePrompt "zXq17 news item" = false
    ∧ strContains deepdivePrompt "zXq17" = false := by
  refine ⟨?_, ?_, ?_, ?_⟩
  · rw [generateStory_events]
    exact List.getLast?_concat _
  · set_option maxRecDepth 40000 in decide
  · set_option maxRecDepth 40000 in decide
  · set_option maxRecDepth 40000 in decide

/-- C3. For every catalog (regions list) and every assignment of per-prompt
retrieval outcomes, the completed story is exactly the title block, then one
three-element block per catalog section in catalog order, then the deep-dive
block: the block count is determined by the catalog alone, the title and
generation date come first, and a failed section still contributes its block,
whose body is the visible error notice. -/
theorem retrieval_phase_complete_catalog (client : String → CapResult)
    (regions : List (String × String)) (today : String)
    (e query : String) (mr : Nat) (sty : String) :
    (generateStoryState client regions today).story =
        titleElems today ++ sectionsElems client (briefCatalog regions) ++ deepElems client
    ∧ (briefCatalog regions).length = 4 + regions.length
    ∧ (generateStoryState client regions today).story.length = 3 * (4 + regions.length) + 6
    ∧ (generateStoryState client regions today).story.take 2 =
        [Element.paragraph "DAILY INTELLIGENCE BRIEF" "CustomTitle",
         Element.paragraph ("<i>" ++ today ++ "</i>") "DateStyle"]
    ∧ search_news (fun _ => CapResult.err e) query mr sty = "Error retrieving news: " ++ e := by
  refine ⟨generateStory_story client regions today, briefCatalog_length regions, ?_, ?_, ?_⟩
  · rw [generateStory_story]
    simp [sectionsElems_length, briefCatalog_length, titleElems, deepElems]
  · rw [generateStory_story]
    simp [titleElems]
  · simp [search_news]

/-- C6. If doc.build fails (rendering engine or disk-write failure), the
process exits 1 and no send_email operation happens at all: the trace has no
transport send and no artifact read — rendering failure always precludes the
email attempt. -/
theorem render_failure_precludes_delivery (cfg : Config) (client : String → CapResult)
    (transport : Except String Unit) (dt : Date) (today : String) (e : String) :
    (mainRun cfg client (Except.error e) transport dt today).1 = 1
    ∧ List.countP isSmtp (mainRun cfg client (Except.error e) transport dt today).2 = 0
    ∧ List.countP isFileRead (mainRun cfg client (Except.error e) transport dt today).2 = 0 := by
  by_cases hk : truthyOpt cfg.anthropic_api_key = false
  · simp [mainRun, generate_briefRun, hk]
  · have hk2 : truthyOpt cfg.anthropic_api_key = true := by
      revert hk
      cases truthyOpt cfg.anthropic_api_key <;> simp
    have hsm : List.countP isSmtp
        (generateStoryState client defaultRegions today).events = 0 :=
      countP_zero_of_retrieval _ (fun _ => rfl) _
        (generateStory_events_retrieval client defaultRegions today)
    have hfr : List.countP isFileRead
        (generateStoryState client defaultRegions today).events = 0 :=
      countP_zero_of_retrieval _ (fun _ => rfl) _
        (generateStory_events_retrieval client defaultRegions today)
    simp [mainRun, generate_briefRun, hk2, List.countP_append, hsm, hfr,
      List.countP_cons, isSmtp, isFileRead]

/-- C2 as amended: only the retrieval credential is checked before retrieval
work begins — when it is missing the process exits 1 having made zero
retrieval calls; when it is present but a transport credential is missing
(the recipient always has the hard-coded fallback), the process still exits 1
and never opens a transport session, but only after all ten retrieval calls
have been made. -/
theorem config_gate_amended (cfg : Config) (client : String → CapResult)
    (render transport : Except String Unit) (dt : Date) (today : String) :
    (truthyOpt cfg.anthropic_api_key = false →
        mainRun cfg client render transport dt today = (1, []))
    ∧ (truthyOpt cfg.anthropic_api_key = true → emailConfigOk cfg = false →
        (mainRun cfg client render transport dt today).1 = 1
        ∧ List.countP isSmtp (mainRun cfg client render transport dt today).2 = 0
        ∧ List.countP isRetrieval (mainRun cfg client render transport dt today).2 = 10) := by
  constructor
  · intro h
    simp [mainRun, generate_briefRun, h]
  · intro hk hcfg
    have hretr : List.countP isRetrieval
        (generateStoryState client defaultRegions today).events = 10 := by
      rw [generateStory_events, List.countP_append, countP_retrieval_sectionsEvents,
        briefCatalog_length]
      simp [isRetrieval, List.countP_cons, defaultRegions]
    have hsm : List.countP isSmtp
        (generateStoryState client defaultRegions today).events = 0 :=
      countP_zero_of_retrieval _ (fun _ => rfl) _
        (generateStory_events_retrieval client defaultRegions today)
    cases render with
    | error er =>
        simp [mainRun, generate_briefRun, hk, List.countP_append, hsm, hretr,
          List.countP_cons, isSmtp, isRetrieval]
    | ok u =>
        simp [mainRun, generate_briefRun, send_emailRun, hk, hcfg, List.countP_append,
          hsm, hretr, List.countP_cons, isSmtp, isRetrieval]

/-- Environment with the retrieval credential set but the transport password
absent (recipient falls back to the hard-coded default). -/
def cfgNoPwd : Config := ⟨some "key", some "sender@example.com", none, none⟩

/-- Environment with the retrieval credential absent. -/
def cfgNoKey : Config := ⟨none, some "sender@example.com", some "pw", none⟩

/-- Environment with every configuration value present. -/
def cfgFull : Config := ⟨some "key", some "sender@example.com", some "pw", none⟩

/-- Counterexample to C2 as stated: with the transport password missing (one
of the three required configuration values), the process does exit 1, but
only after all ten retrieval-capability calls were made — not before any
retrieval call, and the retrieval-call count is not zero. -/
theorem config_gate_claim_cex :
    (mainRun cfgNoPwd capMark (Except.ok ()) (Except.ok ())
        ⟨2025, 10, 12⟩ "October 12, 2025").1 = 1
    ∧ List.countP isRetrieval (mainRun cfgNoPwd capMark (Except.ok ()) (Except.ok ())
        ⟨2025, 10, 12⟩ "October 12, 2025").2 = 10 := by
  have hk : truthyOpt cfgNoPwd.anthropic_api_key = true := by decide
  have hc : emailConfigOk cfgNoPwd = false := by decide
  have hretr : List.countP isRetrieval
      (generateStoryState capMark defaultRegions "October 12, 2025").events = 10 := by
    rw [generateStory_events, List.countP_append, countP_retrieval_sectionsEvents,
      briefCatalog_length]
    simp [isRetrieval, List.countP_cons, defaultRegions]
  constructor
  · simp [mainRun, generate_briefRun, send_emailRun, hk, hc]
  · simp [mainRun, generate_briefRun, send_emailRun, hk, hc, List.countP_append,
      hretr, List.countP_cons, isRetrieval]

/-- Witness for the amended C2: with the retrieval credential absent the
process exits 1 with an empty trace — zero retrieval calls. -/
theorem config_gate_amended_witness :
    mainRun cfgNoKey capMark (Except.ok ()) (Except.ok ())
        ⟨2025, 10, 12⟩ "October 12, 2025" = (1, []) :=
  (config_gate_amended cfgNoKey capMark (Except.ok ()) (Except.ok ())
    ⟨2025, 10, 12⟩ "October 12, 2025").1 rfl

/-- C8. When the transport fails, the process exits 1; the artifact written
by the render step is in the trace and no trace operation ever deletes it —
indeed send_email performs no file deletion or file write on any path and any
transport outcome: the artifact is left on disk for manual recovery. -/
theorem delivery_failure_leaves_artifact (cfg : Config) (client : String → CapResult)
    (dt : Date) (today : String) (e : String) (otherPath : String)
    (tr : Except String Unit)
    (hkey : truthyOpt cfg.anthropic_api_key = true) :
    (mainRun cfg client (Except.ok ()) (Except.error e) dt today).1 = 1
    ∧ Event.fileWrite (pdf_filename dt) ∈
        (mainRun cfg client (Except.ok ()) (Except.error e) dt today).2
    ∧ List.countP isFileDelete
        (mainRun cfg client (Except.ok ()) (Except.error e) dt today).2 = 0
    ∧ List.countP isFileDelete (send_emailRun cfg otherPath tr).2 = 0
    ∧ List.countP isFileWrite (send_emailRun cfg otherPath tr).2 = 0 := by
  have hdel : List.countP isFileDelete
      (generateStoryState client defaultRegions today).events = 0 :=
    countP_zero_of_retrieval _ (fun _ => rfl) _
      (generateStory_events_retrieval client defaultRegions today)
  have hframe : List.countP isFileDelete (send_emailRun cfg otherPath tr).2 = 0
      ∧ List.countP isFileWrite (send_emailRun cfg otherPath tr).2 = 0 := by
    unfold send_emailRun
    by_cases hc : emailConfigOk cfg = false
    · simp [hc]
    · have hc2 : emailConfigOk cfg = true := by
        revert hc
        cases emailConfigOk cfg <;> simp
      cases tr with
      | error te => simp [hc2, List.countP_cons, isFileDelete, isFileWrite]
      | ok u => simp [hc2, List.countP_cons, isFileDelete, isFileWrite]
  refine ⟨?_, ?_, ?_, hframe.1, hframe.2⟩
  all_goals by_cases hc : emailConfigOk cfg = false
  · simp [mainRun, generate_briefRun, send_emailRun, hkey, hc]
  · have hc2 : emailConfigOk cfg = true := by
      revert hc
      cases emailConfigOk cfg <;> simp
    simp [mainRun, generate_briefRun, send_emailRun, hkey, hc2]
  · simp [mainRun, generate_briefRun, send_emailRun, hkey, hc]
  · have hc2 : emailConfigOk cfg = true := by
      revert hc
      cases emailConfigOk cfg <;> simp
    simp [mainRun, generate_briefRun, send_emailRun, hkey, hc2]
  · simp [mainRun, generate_briefRun, send_emailRun, hkey, hc, List.countP_append,
      hdel, List.countP_cons, isFileDelete]
  · have hc2 : emailConfigOk cfg = true := by
      revert hc
      cases emailConfigOk cfg <;> simp
    simp [mainRun, generate_briefRun, send_emailRun, hkey, hc2, List.countP_append,
      hdel, List.countP_cons, isFileDelete]

/-- Witness for C8: every configuration value present, transport rejects
authentication. -/
theorem delivery_failure_leaves_artifact_witness :
    (mainRun cfgFull capMark (Except.ok ()) (Except.error "auth rejected")
        ⟨2025, 10, 12⟩ "October 12, 2025").1 = 1
    ∧ Event.fileWrite (pdf_filename ⟨2025, 10, 12⟩) ∈
        (mainRun cfgFull capMark (Except.ok ()) (Except.error "auth rejected")
          ⟨2025, 10, 12⟩ "October 12, 2025").2
    ∧ List.countP isFileDelete
        (mainRun cfgFull capMark (Except.ok ()) (Except.error "auth rejected")
          ⟨2025, 10, 12⟩ "October 12, 2025").2 = 0
    ∧ List.countP isFileDelete
        (send_emailRun cfgFull "/tmp/x.pdf" (Except.error "auth rejected")).2 = 0
    ∧ List.countP isFileWrite
        (send_emailRun cfgFull "/tmp/x.pdf" (Except.error "auth rejected")).2 = 0 :=
  delivery_failure_leaves_artifact cfgFull capMark ⟨2025, 10, 12⟩ "October 12, 2025"
    "auth rejected" "/tmp/x.pdf" (Except.error "auth rejected") (by decide)
